import Mathlib

/-!
Verification of the message dispatch engine and worker lifecycle pieces of the
`azure-functions-nodejs-worker` repository.

The embedding follows the TypeScript source files:
  * `src/setupEventStream.ts` — the dispatch loop `handleMessage` and the
    write-validation wrapper `checkWrite` installed by `setupEventStream`;
  * `src/coreApi/registerFunction.ts` — the function registry operations
    `registerFunction` / `convertToRawBinding` and the disposal token;
  * `src/startApp.ts` — the app-start hook context construction.

External collaborators (the event-handler classes, the protobuf layer, the
`uuid` library, logging utilities) are modelled by explicit parameters or by
small definitions whose doc comments state what they stand for.
-/

namespace AzWorker

/-- Log severities used by `rpc.RpcLog.Level`; only `Error` and `Debug`
matter for the dispatch code. -/
inductive LogLevel where
  | Debug
  | Error
  deriving DecidableEq, Repr

/-- Log categories used by `rpc.RpcLog.RpcLogCategory`. -/
inductive LogCategory where
  | User
  | System
  deriving DecidableEq, Repr

/-- One structured log entry, as passed to `worker.log` in
`setupEventStream.ts`. -/
structure LogEntry where
  message : String
  level : LogLevel
  logCategory : LogCategory
  deriving DecidableEq, Repr

/-- Modelled from the spec: `ensureErrorType` (in `src/errors.ts`, not part of
the provided sources) normalizes a thrown value into an `Error` carrying a
`message`, an optional `stack`, and the `isAzureFunctionsSystemError` flag set
by `AzFuncSystemError`.  Thrown values are embedded directly in this
normalized form, so `ensureErrorType` is the identity here. -/
structure ErrorInfo where
  message : String
  stack : Option String
  isAzureFunctionsSystemError : Bool
  deriving DecidableEq, Repr

/-- `new AzFuncSystemError(msg)`: an error with the
`isAzureFunctionsSystemError` flag set and no stack recorded in the model. -/
def azFuncSystemError (msg : String) : ErrorInfo :=
  { message := msg, stack := none, isAzureFunctionsSystemError := true }

/-- The `status` values of `rpc.StatusResult.Status` used by the dispatcher. -/
inductive Status where
  | Success
  | Failure
  deriving DecidableEq, Repr

/-- The `exception` sub-object of a `StatusResult`. -/
structure ExceptionInfo where
  message : String
  stackTrace : Option String
  deriving DecidableEq, Repr

/-- `rpc.IStatusResult`: `{ status, exception? }`. -/
structure StatusResult where
  status : Status
  exception : Option ExceptionInfo := none
  deriving DecidableEq, Repr

/-- A response payload as produced by an event handler: its body (abstract,
supplied by the handler) together with the mutable `result` property that the
dispatcher assigns before writing the envelope out. -/
structure Response (Body : Type) where
  body : Body
  result : Option StatusResult := none
  deriving DecidableEq, Repr

/-- The content kinds of an inbound `rpc.StreamingMessage` as discriminated by
the `switch (eventName)` in `handleMessage`.  `unknown s` stands for any
content name outside the enumerated cases (the `default` branch), carrying the
name interpolated into the error message. -/
inductive MsgKind where
  | functionEnvironmentReloadRequest
  | functionLoadRequest
  | invocationRequest
  | workerInitRequest
  | workerTerminate
  | workerStatusRequest
  | functionsMetadataRequest
  | closeSharedMemoryResourcesRequest
  | fileChangeEventRequest
  | functionLoadRequestCollection
  | invocationCancel
  | startStream
  | workerHeartbeat
  | unknown (name : String)
  deriving DecidableEq, Repr

/-- The five content kinds the `switch` pairs with an `EventHandler` class. -/
def MsgKind.hasHandler : MsgKind → Bool
  | .functionEnvironmentReloadRequest => true
  | .functionLoadRequest => true
  | .invocationRequest => true
  | .workerInitRequest => true
  | .functionsMetadataRequest => true
  | _ => false

/-- The string form of a content kind, as `inMsg.content` yields it and as it
is interpolated into the unknown-kind error message. -/
def MsgKind.name : MsgKind → String
  | .functionEnvironmentReloadRequest => "functionEnvironmentReloadRequest"
  | .functionLoadRequest => "functionLoadRequest"
  | .invocationRequest => "invocationRequest"
  | .workerInitRequest => "workerInitRequest"
  | .workerTerminate => "workerTerminate"
  | .workerStatusRequest => "workerStatusRequest"
  | .functionsMetadataRequest => "functionsMetadataRequest"
  | .closeSharedMemoryResourcesRequest => "closeSharedMemoryResourcesRequest"
  | .fileChangeEventRequest => "fileChangeEventRequest"
  | .functionLoadRequestCollection => "functionLoadRequestCollection"
  | .invocationCancel => "invocationCancel"
  | .startStream => "startStream"
  | .workerHeartbeat => "workerHeartbeat"
  | .unknown s => s

/-- An inbound `rpc.StreamingMessage` at the granularity `handleMessage`
inspects it: the correlation id, the discriminating content-kind name, and the
content field itself, which the static type allows to be `null`/`undefined`
(hence `Option`); `nonNullProp` guards exactly that. `Req` is the abstract
request payload type. -/
structure InMsg (Req : Type) where
  requestId : String
  kind : MsgKind
  content : Option Req
  deriving DecidableEq, Repr

/-- An outbound `rpc.IStreamingMessage` assembled by `handleMessage`: it
starts as `{ requestId }`; the `workerStatusRequest` branch sets
`workerStatusResponse = {}` (an empty object — the protobuf
`WorkerStatusResponse` message has no fields at all, in particular no
`result`); the handler path sets `outMsg[eventHandler.responseName]`,
modelled as the named `response` pair. -/
structure OutMsg (Body : Type) where
  requestId : String
  workerStatusResponse : Option Unit := none
  response : Option (String × Response Body) := none
  deriving DecidableEq, Repr

/-- Modelled from the spec: `nonNullProp(source, name)` (in
`src/utils/nonNull.ts`, not part of the provided sources) returns the property
when present and throws an internal/system error when the property is
`null`/`undefined`. -/
def nonNullProp (name : String) (v : Option α) : Except ErrorInfo α :=
  match v with
  | some x => .ok x
  | none => .error (azFuncSystemError ("Internal error: Expected " ++ name ++ " to be non-null"))

/-- The per-kind handler contract of `EventHandler`: `handleEvent` either
produces a response payload or throws, `getDefaultResponse` produces the
minimal valid response used on the failure path, and `responseName` names the
envelope field the dispatcher populates.  The concrete handler classes are
external collaborators, so a `Handlers` record (below) supplies one behavior
per handled kind. -/
structure EventHandler (Req Body : Type) where
  handleEvent : Req → Except ErrorInfo (Response Body)
  getDefaultResponse : Req → Response Body
  responseName : String

/-- The five event-handler classes instantiated by the `switch` in
`handleMessage`. -/
structure Handlers (Req Body : Type) where
  functionEnvironmentReload : EventHandler Req Body
  functionLoad : EventHandler Req Body
  invocation : EventHandler Req Body
  workerInit : EventHandler Req Body
  functionsMetadata : EventHandler Req Body

/-- Which handler the `switch` constructs for a handler-resolved kind. -/
def Handlers.resolve (hs : Handlers Req Body) : MsgKind → Option (EventHandler Req Body)
  | .functionEnvironmentReloadRequest => some hs.functionEnvironmentReload
  | .functionLoadRequest => some hs.functionLoad
  | .invocationRequest => some hs.invocation
  | .workerInitRequest => some hs.workerInit
  | .functionsMetadataRequest => some hs.functionsMetadata
  | _ => none

/-- The observable outcome of one `handleMessage` call: the envelopes written
to `worker.eventStream.write`, the entries passed to `worker.log`, and
whether `terminateWorker` ran.  `handleMessage` is `async` and catches every
error of its `try` block, so it never propagates an exception; totality of
this function models that the process keeps serving subsequent messages. -/
structure DispatchOutcome (Body : Type) where
  writes : List (OutMsg Body)
  logs : List LogEntry
  terminated : Bool
  deriving DecidableEq, Repr

/-- The result of the `try` block of `handleMessage`, keeping exactly what the
surrounding code observes: an early `return` (with any write or terminal
action it already performed), a successful handler run, or a thrown error
together with the values the local variables `eventHandler` and `request`
held at the moment of the throw. -/
inductive TryOutcome (Req Body : Type) where
  | earlyReturn (writes : List (OutMsg Body)) (terminated : Bool)
  | success (h : EventHandler Req Body) (response : Response Body)
  | thrown (eventHandler : Option (EventHandler Req Body)) (request : Option Req)
      (err : ErrorInfo)

/-- The `try` block of `handleMessage`: the `switch` over `inMsg.content`,
the `nonNullProp` extraction, and the `handleEvent` call. `outMsgBase` is the
`{ requestId }` object the early-return branches write. -/
def tryBlock (hs : Handlers Req Body) (inMsg : InMsg Req) (outMsgBase : OutMsg Body) :
    TryOutcome Req Body :=
  match inMsg.kind with
  | .workerTerminate =>
    match nonNullProp MsgKind.workerTerminate.name inMsg.content with
    | .ok _ => .earlyReturn [] true
    | .error e => .thrown none none e
  | .workerStatusRequest =>
    .earlyReturn [{ outMsgBase with workerStatusResponse := some () }] false
  | .closeSharedMemoryResourcesRequest => .earlyReturn [] false
  | .fileChangeEventRequest => .earlyReturn [] false
  | .functionLoadRequestCollection => .earlyReturn [] false
  | .invocationCancel => .earlyReturn [] false
  | .startStream => .earlyReturn [] false
  | .workerHeartbeat => .earlyReturn [] false
  | .unknown s =>
    .thrown none none
      (azFuncSystemError ("Worker had no handler for message \x27" ++ s ++ "\x27"))
  | k =>
    match hs.resolve k with
    | none =>
      .thrown none none
        (azFuncSystemError ("Worker had no handler for message \x27" ++ k.name ++ "\x27"))
    | some h =>
      match nonNullProp k.name inMsg.content with
      | .error e => .thrown (some h) none e
      | .ok req =>
        match h.handleEvent req with
        | .ok response =>
          .success h { response with result := some { status := .Success } }
        | .error err => .thrown (some h) (some req) err

/-- `handleMessage` from `setupEventStream.ts`: builds `outMsg` with the
echoed `requestId`, runs the `try` block, and on a thrown error logs system
errors at error severity, attaches the failure-shaped `getDefaultResponse`
when both `eventHandler` and `request` were resolved, and finally writes
`outMsg` exactly when `eventHandler` was resolved. -/
def handleMessage (hs : Handlers Req Body) (inMsg : InMsg Req) : DispatchOutcome Body :=
  let outMsgBase : OutMsg Body := { requestId := inMsg.requestId }
  match tryBlock hs inMsg outMsgBase with
  | .earlyReturn writes terminated =>
    { writes := writes, logs := [], terminated := terminated }
  | .success h response =>
    { writes := [{ outMsgBase with response := some (h.responseName, response) }],
      logs := [], terminated := false }
  | .thrown eventHandler request err =>
    let logs : List LogEntry :=
      if err.isAzureFunctionsSystemError then
        [{ message := err.message, level := .Error, logCategory := .System }]
      else []
    let outMsg : OutMsg Body :=
      match eventHandler, request with
      | some h, some req =>
        let failResult : StatusResult :=
          { status := .Failure,
            exception := some { message := err.message, stackTrace := err.stack } }
        let response : Response Body :=
          { h.getDefaultResponse req with result := some failResult }
        { outMsgBase with response := some (h.responseName, response) }
      | _, _ => outMsgBase
    { writes := if eventHandler.isSome then [outMsg] else [],
      logs := logs, terminated := false }

/-! ## `src/setupEventStream.ts` — the write-validation wrapper -/

/-- The observable outcome of one call to the wrapped
`worker.eventStream.write` (`checkWrite`): log entries emitted, the error
thrown (if any), and the messages actually handed to the underlying
`oldWrite`. -/
structure WriteOutcome (M : Type) where
  logs : List LogEntry
  thrown : Option ErrorInfo
  written : List M
  deriving Repr

/-- Modelled from the spec: the `systemError` utility of `src/utils/Logger.ts`
(not part of the provided sources) logs its arguments as one system log entry
at error severity. -/
def systemErrorLog (message : String) (detail : String) : LogEntry :=
  { message := message ++ " " ++ detail, level := .Error, logCategory := .System }

/-- `checkWrite` from `setupEventStream`: the wrapper installed over
`worker.eventStream.write`.  `verify` stands for the external
`rpc.StreamingMessage.verify`, which returns a non-null error string exactly
when the message is malformed.  On a verification error the wrapper logs a
system error, throws an `AzFuncSystemError`, and never calls the underlying
write; otherwise it forwards the message unchanged. -/
def checkWrite (verify : M → Option String) (msg : M) : WriteOutcome M :=
  match verify msg with
  | some msgError =>
    { logs := [systemErrorLog "Worker malformed message" msgError],
      thrown := some (azFuncSystemError msgError),
      written := [] }
  | none => { logs := [], thrown := none, written := [msg] }

/-! ## `src/coreApi/registerFunction.ts` — the function registry -/

/-- The `rpc.BindingInfo.Direction` enum. -/
inductive Direction where
  | inDir
  | outDir
  | inoutDir
  deriving DecidableEq, Repr

/-- An `RpcBindingInfo` at the granularity `convertToRawBinding` inspects it:
the binding `type` plus the optional `direction` enum; the spread copies both
into the raw binding. -/
structure BindingInfo where
  type : String
  direction : Option Direction
  deriving DecidableEq, Repr

/-- The object `convertToRawBinding` builds: `{ ...binding, name }` with the
`direction` enum replaced by its lowercase string form when one of the three
enum cases matches (no `default` case: an absent direction stays absent).
The final `JSON.stringify` call is an external JS builtin; the model keeps
the structured object that it would serialize. -/
structure RawBinding where
  type : String
  direction : Option String
  name : String
  deriving DecidableEq, Repr

/-- `convertToRawBinding` from `registerFunction.ts`. -/
def convertToRawBinding (name : String) (binding : BindingInfo) : RawBinding :=
  let rawDirection : Option String :=
    match binding.direction with
    | some .inDir => some "in"
    | some .outDir => some "out"
    | some .inoutDir => some "inout"
    | none => none
  { type := binding.type, direction := rawDirection, name := name }

/-- A `FunctionMetadata` as passed to `registerFunction`: its `name` and its
`bindings` record, whose `Object.entries` view is an insertion-ordered list
of name/binding pairs. -/
structure FunctionMetadata where
  name : String
  bindings : List (String × BindingInfo)
  deriving DecidableEq, Repr

/-- The `rpc.IRpcFunctionMetadata` object stored in the registry: the original
metadata with `functionId`, `rawBindings` and `scriptFile` filled in by
`registerFunction` (the source mutates the metadata object in place; the
model rebuilds it). -/
structure RpcFunctionMetadata where
  name : String
  bindings : List (String × BindingInfo)
  functionId : Option String := none
  rawBindings : List RawBinding := []
  scriptFile : Option String := none
  deriving DecidableEq, Repr

/-- One entry of `channel.functions`: `{ metadata, callback }` with the
callback kept abstract. -/
structure RegisteredFunction (Cb : Type) where
  metadata : RpcFunctionMetadata
  callback : Cb
  deriving DecidableEq, Repr

/-- The slice of `WorkerChannel` the provided sources touch: the monotone
`hasIndexedFunctions` flag, the `functions` registry (a string-keyed object,
modelled as an insertion-ordered association list), the two hook-data tiers
(`D` abstract), and the identifier supply.  `uuids`/`uuidsUsed` are modelled
from the spec: the external `uuid` v4 generator is a supply of fresh
identifiers, modelled as a deterministic stream indexed by how many ids were
drawn so far. -/
structure WorkerChannel (D Cb : Type) where
  hasIndexedFunctions : Bool
  functions : List (String × RegisteredFunction Cb)
  appHookData : D
  appLevelOnlyHookData : D
  uuids : Nat → String
  uuidsUsed : Nat

/-- Modelled from the spec: `InternalException` (in
`src/utils/InternalException.ts`, not part of the provided sources) carries
the given message; per spec §7, registration-window violations are
internal/system errors. -/
def internalException (msg : String) : ErrorInfo :=
  { message := msg, stack := none, isAzureFunctionsSystemError := true }

/-- `registerFunction` from `registerFunction.ts`: throws the startup-only
error once the worker is indexed; otherwise draws a fresh id, rewrites the
metadata (`functionId`, `rawBindings` via `convertToRawBinding`,
`scriptFile = "n/a"`), stores `{metadata, callback}` under the id, and
returns the id that the disposal token captures. -/
def registerFunction (channel : WorkerChannel D Cb) (metadata : FunctionMetadata)
    (callback : Cb) : Except ErrorInfo (String × WorkerChannel D Cb) :=
  if channel.hasIndexedFunctions then
    .error (internalException "A function can only be registered during app startup.")
  else
    let functionId := channel.uuids channel.uuidsUsed
    let rpcMetadata : RpcFunctionMetadata :=
      { name := metadata.name
        bindings := metadata.bindings
        functionId := some functionId
        rawBindings := metadata.bindings.map (fun p => convertToRawBinding p.1 p.2)
        scriptFile := some "n/a" }
    .ok (functionId,
      { channel with
        functions := channel.functions ++ [(functionId, ⟨rpcMetadata, callback⟩)]
        uuidsUsed := channel.uuidsUsed + 1 })

/-- The disposal token returned by `registerFunction`: its callback throws the
startup-only error once the worker is indexed, and otherwise deletes the
entry keyed by the captured `functionId`. -/
def disposeFunction (functionId : String) (channel : WorkerChannel D Cb) :
    Except ErrorInfo (WorkerChannel D Cb) :=
  if channel.hasIndexedFunctions then
    .error (internalException "A function can only be disposed during app startup.")
  else
    .ok { channel with
      functions := channel.functions.filter (fun p => p.1 ≠ functionId) }

/-- A sequence of `registerFunction` calls threaded through the channel,
collecting the assigned ids; used to state uniqueness and monotonicity of the
ids across calls. -/
def registerMany (channel : WorkerChannel D Cb) :
    List (FunctionMetadata × Cb) → Except ErrorInfo (List String × WorkerChannel D Cb)
  | [] => .ok ([], channel)
  | e :: rest =>
    match registerFunction channel e.1 e.2 with
    | .error err => .error err
    | .ok (fid, ch) =>
      match registerMany ch rest with
      | .error err => .error err
      | .ok (fids, ch') => .ok (fid :: fids, ch')

/-! ## `src/startApp.ts` — the app-start hook context -/

/-- A JS property with a getter and a setter, as defined by the object literal
in `startApp`. -/
structure PropAccessor (α : Type) where
  get : α
  set : α → Except ErrorInfo Unit

/-- `new ReadOnlyError(name)` (in `src/utils/ReadOnlyError.ts`, not part of
the provided sources): per the test suite of `startApp`, throwing it surfaces
the message `Cannot assign to read only property NAME`. -/
def readOnlyError (name : String) : ErrorInfo :=
  { message := "Cannot assign to read only property \x27" ++ name ++ "\x27",
    stack := none, isAzureFunctionsSystemError := false }

/-- The `AppStartContext` shape built by `startApp`. -/
structure AppStartContext (D : Type) where
  hookData : PropAccessor D
  appHookData : PropAccessor D
  functionAppDirectory : String

/-- The `appStartContext` object literal from `startApp`: `hookData` reads
`channel.appLevelOnlyHookData` and `appHookData` reads `channel.appHookData`;
both setters throw a `ReadOnlyError` naming the property. -/
def appStartContext (channel : WorkerChannel D Cb) (functionAppDirectory : String) :
    AppStartContext D :=
  { hookData :=
      { get := channel.appLevelOnlyHookData
        set := fun _ => .error (readOnlyError "hookData") }
    appHookData :=
      { get := channel.appHookData
        set := fun _ => .error (readOnlyError "appHookData") }
    functionAppDirectory := functionAppDirectory }

/-! ## Theorems about the dispatch loop -/

/-- Simple concrete handler over `Unit` request/response bodies, used by the
witness theorems. -/
def demoHandler (rn : String) (ev : Except ErrorInfo (Response Unit)) :
    EventHandler Unit Unit :=
  { handleEvent := fun _ => ev
    getDefaultResponse := fun _ => { body := () }
    responseName := rn }

/-- Concrete set of handlers over `Unit`, used by the witness theorems. -/
def demoHandlers : Handlers Unit Unit :=
  { functionEnvironmentReload := demoHandler "functionEnvironmentReloadResponse" (.ok { body := () })
    functionLoad := demoHandler "functionLoadResponse" (.ok { body := () })
    invocation := demoHandler "invocationResponse" (.ok { body := () })
    workerInit := demoHandler "workerInitResponse" (.ok { body := () })
    functionsMetadata := demoHandler "functionsMetadataResponse" (.ok { body := () }) }

/-- C2: every envelope `handleMessage` writes out echoes the inbound
`requestId` verbatim — across the handler success path, the handler failure
path, the null-content path, and the `workerStatusRequest` short-circuit. -/
theorem response_echoes_requestId (hs : Handlers Req Body) (m : InMsg Req)
    (o : OutMsg Body) (ho : o ∈ (handleMessage hs m).writes) :
    o.requestId = m.requestId := by
  rcases m with ⟨rid, kind, content⟩
  cases kind <;> rcases content with _ | req <;>
    (simp only [handleMessage, tryBlock, nonNullProp, Handlers.resolve] at ho
     repeat' split at ho) <;>
    first
      | (simp_all; done)
      | (rename_i heq; split at heq <;> simp_all)

/-- C4: an inbound envelope whose content kind is outside the enumerated set
makes `handleMessage` log exactly one system log entry at error severity
(the unknown-kind `AzFuncSystemError` message) and write no outbound
envelope; `handleMessage` catches the error, so the process keeps serving
subsequent messages. -/
theorem unknownKind_logs_and_writes_nothing (hs : Handlers Req Body)
    (m : InMsg Req) (s : String) (hk : m.kind = .unknown s) :
    handleMessage hs m =
      { writes := [],
        logs := [{ message := "Worker had no handler for message \x27" ++ s ++ "\x27",
                   level := .Error, logCategory := .System }],
        terminated := false } := by
  rcases m with ⟨rid, kind, content⟩
  subst hk
  rfl

/-- C5: a `workerStatusRequest` envelope is answered immediately (whatever the
handlers do and whether or not the content field is populated) with an
envelope holding only the echoed `requestId` and the empty
`workerStatusResponse` object — the protobuf `WorkerStatusResponse` message
has no fields, in particular no `result` — while a `workerTerminate` envelope
(its content field populated, as the envelope data model requires) triggers
the terminal action and produces no outbound envelope at all. -/
theorem statusRequest_ack_and_terminate_silent (hs : Handlers Req Body)
    (m : InMsg Req) :
    (m.kind = .workerStatusRequest →
      handleMessage hs m =
        { writes := [{ requestId := m.requestId, workerStatusResponse := some (),
                       response := none }],
          logs := [], terminated := false })
    ∧ (m.kind = .workerTerminate → m.content.isSome = true →
      handleMessage hs m = { writes := [], logs := [], terminated := true }) := by
  rcases m with ⟨rid, kind, content⟩
  constructor
  · intro hk
    subst hk
    rfl
  · intro hk hc
    subst hk
    rcases content with _ | req
    · simp at hc
    · rfl

/-- C9: the six explicitly unimplemented content kinds are discarded
silently: no outbound envelope, no log entry, no terminal action. -/
theorem unimplemented_kinds_silently_discarded (hs : Handlers Req Body)
    (m : InMsg Req)
    (hk : m.kind ∈ [MsgKind.closeSharedMemoryResourcesRequest,
      MsgKind.fileChangeEventRequest, MsgKind.functionLoadRequestCollection,
      MsgKind.invocationCancel, MsgKind.startStream, MsgKind.workerHeartbeat]) :
    handleMessage hs m = { writes := [], logs := [], terminated := false } := by
  rcases m with ⟨rid, kind, content⟩
  simp only [List.mem_cons, List.not_mem_nil, or_false] at hk
  rcases hk with h | h | h | h | h | h <;> subst h <;> rfl

/-- C10: when the content kind resolves to a handler but the content field
itself is null, `nonNullProp` throws before `handleEvent` runs; the catch
block has `eventHandler` but no `request`, so `handleMessage` still writes an
outbound envelope and that envelope carries only the echoed `requestId` —
no response field, no result status. -/
theorem nullContent_writes_bare_envelope (hs : Handlers Req Body)
    (m : InMsg Req) (h : EventHandler Req Body)
    (hres : hs.resolve m.kind = some h) (hc : m.content = none) :
    (handleMessage hs m).writes =
      [{ requestId := m.requestId, workerStatusResponse := none, response := none }] := by
  rcases m with ⟨rid, kind, content⟩
  subst hc
  cases kind <;> first
    | exact Option.noConfusion hres
    | rfl

/-- C1: for a handler-resolved content kind with its content populated, a
successful `handleEvent` makes the outbound envelope carry the handler's
payload under its response field with `result.status = Success`, while a
thrown error makes it carry the handler's `getDefaultResponse` with
`result.status = Failure`, `exception.message` the error's message and
`exception.stackTrace` its stack. -/
theorem handler_success_and_failure_shapes (hs : Handlers Req Body)
    (m : InMsg Req) (h : EventHandler Req Body) (req : Req)
    (hres : hs.resolve m.kind = some h) (hc : m.content = some req) :
    (∀ resp, h.handleEvent req = .ok resp →
      (handleMessage hs m).writes =
        [{ requestId := m.requestId,
           response := some (h.responseName,
                             { resp with
                               result := some { status := Status.Success,
                                                exception := none } }) }])
    ∧ (∀ err, h.handleEvent req = .error err →
      (handleMessage hs m).writes =
        [{ requestId := m.requestId,
           response := some (h.responseName,
                             { h.getDefaultResponse req with
                               result := some
                                 { status := Status.Failure,
                                   exception := some { message := err.message,
                                                       stackTrace := err.stack } } }) }]) := by
  rcases m with ⟨rid, kind, content⟩
  subst hc
  cases kind <;> (try exact Option.noConfusion hres)
  all_goals
    simp only [Handlers.resolve, Option.some.injEq] at hres
  all_goals
    subst hres
  all_goals
    refine ⟨fun resp hre => ?_, fun err hre => ?_⟩ <;>
      simp [handleMessage, tryBlock, nonNullProp, Handlers.resolve, hre]

/-! ## Theorems about the function registry -/

/-- Helper: on a channel still inside the registration window,
`registerFunction` succeeds, draws the next id from the supply, appends the
rewritten entry under that id, and advances the supply counter. -/
theorem registerFunction_step (channel : WorkerChannel D Cb)
    (hidx : channel.hasIndexedFunctions = false) (md : FunctionMetadata) (cb : Cb) :
    ∃ ch', registerFunction channel md cb = .ok (channel.uuids channel.uuidsUsed, ch')
      ∧ ch'.hasIndexedFunctions = false
      ∧ ch'.uuidsUsed = channel.uuidsUsed + 1
      ∧ ch'.uuids = channel.uuids
      ∧ ch'.functions = channel.functions ++
          [(channel.uuids channel.uuidsUsed,
            { metadata := { name := md.name,
                            bindings := md.bindings,
                            functionId := some (channel.uuids channel.uuidsUsed),
                            rawBindings := md.bindings.map fun p => convertToRawBinding p.1 p.2,
                            scriptFile := some "n/a" },
              callback := cb })] := by
  refine ⟨{ channel with
            functions := channel.functions ++
              [(channel.uuids channel.uuidsUsed,
                { metadata := { name := md.name,
                                bindings := md.bindings,
                                functionId := some (channel.uuids channel.uuidsUsed),
                                rawBindings := md.bindings.map fun p => convertToRawBinding p.1 p.2,
                                scriptFile := some "n/a" },
                  callback := cb })],
            uuidsUsed := channel.uuidsUsed + 1 }, ?_, hidx, rfl, rfl, rfl⟩
  simp [registerFunction, hidx]

/-- Helper: a run of `registerFunction` calls on a channel inside the
registration window succeeds throughout and assigns the ids drawn from the
supply at the successive counter values. -/
theorem registerMany_ids (entries : List (FunctionMetadata × Cb)) :
    ∀ channel : WorkerChannel D Cb, channel.hasIndexedFunctions = false →
      ∃ ch', registerMany channel entries =
          .ok ((List.range' channel.uuidsUsed entries.length).map channel.uuids, ch')
        ∧ ch'.uuidsUsed = channel.uuidsUsed + entries.length
        ∧ ch'.uuids = channel.uuids := by
  induction entries with
  | nil =>
    intro ch _
    exact ⟨ch, rfl, rfl, rfl⟩
  | cons e rest ih =>
    intro ch h
    obtain ⟨ch1, hreg, h1, hu1, hid1, _⟩ := registerFunction_step ch h e.1 e.2
    obtain ⟨ch', hr, hu, hid⟩ := ih ch1 h1
    refine ⟨ch', ?_, ?_, ?_⟩
    · rw [hu1, hid1] at hr
      simp only [registerMany, hreg, hr, List.length_cons, List.range'_succ, List.map_cons]
    · rw [hu, hu1, List.length_cons]
      omega
    · rw [hid, hid1]

/-- C3: once the worker has entered the indexed state, `registerFunction`
throws the startup-only error and so does a disposal token's `dispose`;
before indexing, every `registerFunction` call succeeds and returns the id
the supply yields at the current counter, and a run of calls assigns the ids
of strictly increasing counter values `uuidsUsed, uuidsUsed+1, …` — pairwise
distinct because the supply is injective (the uniqueness guarantee of uuid
v4). -/
theorem registration_startup_window (channel : WorkerChannel D Cb)
    (md : FunctionMetadata) (cb : Cb) :
    (channel.hasIndexedFunctions = true →
      registerFunction channel md cb =
        .error (internalException "A function can only be registered during app startup.")
      ∧ ∀ fid, disposeFunction fid channel =
          .error (internalException "A function can only be disposed during app startup."))
    ∧ (channel.hasIndexedFunctions = false →
      (registerFunction channel md cb).map Prod.fst =
        .ok (channel.uuids channel.uuidsUsed))
    ∧ (channel.hasIndexedFunctions = false → Function.Injective channel.uuids →
      ∀ entries : List (FunctionMetadata × Cb),
        (registerMany channel entries).map Prod.fst =
          .ok ((List.range' channel.uuidsUsed entries.length).map channel.uuids)
        ∧ ((List.range' channel.uuidsUsed entries.length).map channel.uuids).Nodup) := by
  refine ⟨fun hidx => ⟨?_, fun fid => ?_⟩, fun hidx => ?_, fun hidx hinj entries => ⟨?_, ?_⟩⟩
  · simp [registerFunction, hidx]
  · simp [disposeFunction, hidx]
  · obtain ⟨ch', hreg, -⟩ := registerFunction_step channel hidx md cb
    rw [hreg]
    rfl
  · obtain ⟨ch', hr, -⟩ := registerMany_ids entries channel hidx
    rw [hr]
    rfl
  · exact (List.nodup_range' _ _ 1 (by norm_num)).map hinj

/-- The lowercase string form the spec prescribes for each binding direction
(`in`, `out`, `inout`); compared below against what the code stores. -/
def specDirectionString : Direction → String
  | .inDir => "in"
  | .outDir => "out"
  | .inoutDir => "inout"

/-- C7: a successful `registerFunction` call stores, under the fresh id the
supply yields (fresh: distinct from every key already in the registry), the
`{metadata, callback}` pair whose metadata carries that id, the sentinel
`scriptFile = "n/a"`, and the raw-binding list in which each named binding
has its name attached and its direction enum projected to the lowercase
string form. -/
theorem register_normalizes_and_stores (channel : WorkerChannel D Cb)
    (md : FunctionMetadata) (cb : Cb)
    (hidx : channel.hasIndexedFunctions = false)
    (hinj : Function.Injective channel.uuids)
    (hkeys : ∀ p ∈ channel.functions, ∃ k, k < channel.uuidsUsed ∧ p.1 = channel.uuids k) :
    ((registerFunction channel md cb).map Prod.fst =
      .ok (channel.uuids channel.uuidsUsed))
    ∧ (∀ p ∈ channel.functions, p.1 ≠ channel.uuids channel.uuidsUsed)
    ∧ ((registerFunction channel md cb).map fun r => r.2.functions) =
      .ok (channel.functions ++
        [(channel.uuids channel.uuidsUsed,
          { metadata := { name := md.name,
                          bindings := md.bindings,
                          functionId := some (channel.uuids channel.uuidsUsed),
                          rawBindings := md.bindings.map fun p => convertToRawBinding p.1 p.2,
                          scriptFile := some "n/a" },
            callback := cb })])
    ∧ (∀ p ∈ md.bindings,
        convertToRawBinding p.1 p.2 =
          { type := p.2.type,
            direction := p.2.direction.map specDirectionString,
            name := p.1 }) := by
  obtain ⟨ch', hreg, -, -, -, hfns⟩ := registerFunction_step channel hidx md cb
  refine ⟨by rw [hreg]; rfl, ?_, by rw [hreg]; exact congrArg Except.ok hfns, ?_⟩
  · intro p hp hpeq
    obtain ⟨k, hk, hpk⟩ := hkeys p hp
    have hkk : channel.uuids channel.uuidsUsed = channel.uuids k := by rw [← hpeq, hpk]
    have := hinj hkk
    omega
  · rintro ⟨name, binding⟩ -
    rcases binding with ⟨ty, _ | d⟩
    · rfl
    · cases d <;> rfl

/-! ## Theorems about the write-validation wrapper -/

/-- C8: when `rpc.StreamingMessage.verify` reports an error, the wrapped
write logs one system error at error severity, throws, and never performs
the underlying write; consequently every message the underlying write
receives passed verification — a malformed envelope is never sent to the
host. -/
theorem checkWrite_blocks_malformed (verify : M → Option String) (msg : M) :
    (∀ e, verify msg = some e →
      checkWrite verify msg =
        { logs := [systemErrorLog "Worker malformed message" e],
          thrown := some (azFuncSystemError e),
          written := [] }
      ∧ (systemErrorLog "Worker malformed message" e).level = LogLevel.Error)
    ∧ (∀ m ∈ (checkWrite verify msg).written, verify m = none ∧ m = msg) := by
  constructor
  · intro e he
    exact ⟨by simp [checkWrite, he], rfl⟩
  · intro m hm
    rcases hv : verify msg with _ | e
    · simp only [checkWrite, hv] at hm
      simp only [List.mem_singleton] at hm
      exact ⟨hm ▸ hv, hm⟩
    · simp [checkWrite, hv] at hm

/-! ## Theorems about the app-start hook context -/

/-- C6: in the context `startApp` builds, reading `hookData` yields
`channel.appLevelOnlyHookData`, reading `appHookData` yields
`channel.appHookData`, and assigning either property itself throws the
read-only-property error naming that property. -/
theorem appStartContext_accessors (channel : WorkerChannel D Cb) (dir : String) :
    (appStartContext channel dir).hookData.get = channel.appLevelOnlyHookData
    ∧ (appStartContext channel dir).appHookData.get = channel.appHookData
    ∧ (∀ v, (appStartContext channel dir).hookData.set v =
        .error (readOnlyError "hookData"))
    ∧ (∀ v, (appStartContext channel dir).appHookData.set v =
        .error (readOnlyError "appHookData")) :=
  ⟨rfl, rfl, fun _ => rfl, fun _ => rfl⟩

/-! ## Concrete instances and witnesses -/

/-- Concrete identifier supply used by the witnesses: pairwise-distinct
strings, standing in for one run of uuid-v4 draws. -/
def demoUuids (n : Nat) : String := String.mk (List.replicate n 'u')

theorem demoUuids_injective : Function.Injective demoUuids := by
  intro a b h
  simpa [demoUuids, String.length] using congrArg String.length h

/-- A channel still inside the registration window. -/
def demoChannel : WorkerChannel Unit Unit :=
  { hasIndexedFunctions := false, functions := [], appHookData := (),
    appLevelOnlyHookData := (), uuids := demoUuids, uuidsUsed := 0 }

/-- The same channel after the worker entered the indexed state. -/
def demoChannelIndexed : WorkerChannel Unit Unit :=
  { demoChannel with hasIndexedFunctions := true }

/-- Concrete function metadata with one input and one output binding. -/
def demoMetadata : FunctionMetadata :=
  { name := "httpTrigger1",
    bindings := [("req", { type := "httpTrigger", direction := some .inDir }),
                 ("res", { type := "http", direction := some .outDir })] }

/-- A concrete user error carrying a message and a stack. -/
def demoError : ErrorInfo :=
  { message := "user code threw", stack := some "stack trace",
    isAzureFunctionsSystemError := false }

/-- Handlers identical to `demoHandlers` except that the invocation handler
throws `demoError`. -/
def demoHandlersFail : Handlers Unit Unit :=
  { demoHandlers with invocation := demoHandler "invocationResponse" (.error demoError) }

theorem response_echoes_requestId_witness :
    ({ requestId := "id-1", workerStatusResponse := some (), response := none } :
      OutMsg Unit).requestId = "id-1" :=
  response_echoes_requestId demoHandlers
    { requestId := "id-1", kind := .workerStatusRequest, content := none }
    { requestId := "id-1", workerStatusResponse := some (), response := none }
    (by decide)

theorem unknownKind_witness :
    handleMessage demoHandlers
      { requestId := "id-2", kind := .unknown "bogus", content := none } =
    { writes := [],
      logs := [{ message := "Worker had no handler for message \x27bogus\x27",
                 level := .Error, logCategory := .System }],
      terminated := false } :=
  unknownKind_logs_and_writes_nothing demoHandlers
    { requestId := "id-2", kind := .unknown "bogus", content := none } "bogus" rfl

theorem status_and_terminate_witness :
    (handleMessage demoHandlers
      { requestId := "id-3", kind := .workerStatusRequest, content := none } =
      { writes := [{ requestId := "id-3", workerStatusResponse := some (), response := none }],
        logs := [], terminated := false })
    ∧ (handleMessage demoHandlers
        { requestId := "id-4", kind := .workerTerminate, content := some () } =
      { writes := [], logs := [], terminated := true }) :=
  ⟨(statusRequest_ack_and_terminate_silent demoHandlers
      { requestId := "id-3", kind := .workerStatusRequest, content := none }).1 rfl,
   (statusRequest_ack_and_terminate_silent demoHandlers
      { requestId := "id-4", kind := .workerTerminate, content := some () }).2 rfl rfl⟩

theorem unimplemented_witness :
    handleMessage demoHandlers
      { requestId := "id-5", kind := .startStream, content := none } =
    { writes := [], logs := [], terminated := false } :=
  unimplemented_kinds_silently_discarded demoHandlers
    { requestId := "id-5", kind := .startStream, content := none } (by decide)

theorem nullContent_witness :
    (handleMessage demoHandlers
      { requestId := "id-6", kind := .invocationRequest, content := none }).writes =
    [{ requestId := "id-6", workerStatusResponse := none, response := none }] :=
  nullContent_writes_bare_envelope demoHandlers
    { requestId := "id-6", kind := .invocationRequest, content := none }
    (demoHandler "invocationResponse" (.ok { body := () })) rfl rfl

theorem handler_shapes_witness :
    ((handleMessage demoHandlers
        { requestId := "id-7", kind := .functionLoadRequest, content := some () }).writes =
      [{ requestId := "id-7", workerStatusResponse := none,
         response := some ("functionLoadResponse", ⟨(), some ⟨Status.Success, none⟩⟩) }])
    ∧ ((handleMessage demoHandlersFail
        { requestId := "id-8", kind := .invocationRequest, content := some () }).writes =
      [{ requestId := "id-8", workerStatusResponse := none,
         response := some ("invocationResponse",
           ⟨(), some ⟨Status.Failure, some ⟨"user code threw", some "stack trace"⟩⟩⟩) }]) :=
  ⟨(handler_success_and_failure_shapes demoHandlers
      { requestId := "id-7", kind := .functionLoadRequest, content := some () }
      demoHandlers.functionLoad () rfl rfl).1 ⟨(), none⟩ rfl,
   (handler_success_and_failure_shapes demoHandlersFail
      { requestId := "id-8", kind := .invocationRequest, content := some () }
      demoHandlersFail.invocation () rfl rfl).2 demoError rfl⟩

theorem registration_window_witness :
    (registerFunction demoChannelIndexed demoMetadata () =
      .error (internalException "A function can only be registered during app startup."))
    ∧ (disposeFunction "some-id" demoChannelIndexed =
      .error (internalException "A function can only be disposed during app startup."))
    ∧ ((registerFunction demoChannel demoMetadata ()).map Prod.fst = .ok (demoUuids 0))
    ∧ ((registerMany demoChannel [(demoMetadata, ()), (demoMetadata, ())]).map Prod.fst =
        .ok ((List.range' 0 2).map demoUuids))
    ∧ ((List.range' 0 2).map demoUuids).Nodup :=
  ⟨((registration_startup_window demoChannelIndexed demoMetadata ()).1 rfl).1,
   ((registration_startup_window demoChannelIndexed demoMetadata ()).1 rfl).2 "some-id",
   (registration_startup_window demoChannel demoMetadata ()).2.1 rfl,
   ((registration_startup_window demoChannel demoMetadata ()).2.2 rfl demoUuids_injective
     [(demoMetadata, ()), (demoMetadata, ())]).1,
   ((registration_startup_window demoChannel demoMetadata ()).2.2 rfl demoUuids_injective
     [(demoMetadata, ()), (demoMetadata, ())]).2⟩

theorem register_normalizes_witness :
    (((registerFunction demoChannel demoMetadata ()).map fun r => r.2.functions) =
      .ok [(demoUuids 0,
            { metadata := { name := "httpTrigger1",
                            bindings := demoMetadata.bindings,
                            functionId := some (demoUuids 0),
                            rawBindings := [⟨"httpTrigger", some "in", "req"⟩,
                                            ⟨"http", some "out", "res"⟩],
                            scriptFile := some "n/a" },
              callback := () })])
    ∧ (convertToRawBinding "req" { type := "httpTrigger", direction := some .inDir } =
        { type := "httpTrigger",
          direction := (some Direction.inDir).map specDirectionString,
          name := "req" }) :=
  ⟨(register_normalizes_and_stores demoChannel demoMetadata () rfl demoUuids_injective
      (by simp [demoChannel])).2.2.1,
   (register_normalizes_and_stores demoChannel demoMetadata () rfl demoUuids_injective
      (by simp [demoChannel])).2.2.2 ("req", { type := "httpTrigger", direction := some .inDir })
      (by simp [demoMetadata])⟩

/-- A verifier that rejects every message, standing for
`rpc.StreamingMessage.verify` on a malformed envelope. -/
def demoVerifyFail : OutMsg Unit → Option String := fun _ => some "requestId expected"

/-- A verifier that accepts every message. -/
def demoVerifyOk : OutMsg Unit → Option String := fun _ => none

/-- A concrete outbound message. -/
def demoOutMsg : OutMsg Unit := { requestId := "id-9" }

theorem checkWrite_witness :
    (checkWrite demoVerifyFail demoOutMsg =
      { logs := [systemErrorLog "Worker malformed message" "requestId expected"],
        thrown := some (azFuncSystemError "requestId expected"),
        written := [] })
    ∧ demoVerifyOk demoOutMsg = none :=
  ⟨((checkWrite_blocks_malformed demoVerifyFail demoOutMsg).1 "requestId expected" rfl).1,
   ((checkWrite_blocks_malformed demoVerifyOk demoOutMsg).2 demoOutMsg (by decide)).1⟩

end AzWorker
